import Mathlib

set_option linter.unusedVariables false

/-!
Verification of the CoAI_app pipeline-orchestration and event-streaming core.

Shallow embedding, translated from the Python source:
  - `src/api/utils/retry.py`             (exponential backoff retry helper)
  - `src/api/services/event_stream.py`   (event bus / SSE broadcast manager)
  - `src/api/routers/pipeline.py`        (run submission endpoint)
  - `src/api/services/pipeline_service.py` (orchestrator, status reconciliation)
  - `src/app/core/step1_keyword_scraper.py` (discovered-product upsert)
  - `src/app/core/free_traffic_analyzer.py` (traffic-record upsert)
  - `src/api/routers/results.py`         (delete endpoint)
  - `src/app/models/models.py`           (persisted data model)

Database tables are modelled as Lean lists of records, sessions as explicit
state passing, exceptions as `Except`/`Option`, wall-clock times as natural
number ticks.  Collaborators doing external I/O (Apify scraper, traffic HTTP
lookup, tldextract) are oracle parameters, as the spec designates them
external.
-/

/-! ## Retry helper (`src/api/utils/retry.py`, `exponential_backoff` lines 44-106,
`async_exponential_backoff` lines 131-193) -/

/-- Outcome of one invocation of the wrapped work unit: it returns a value,
raises an exception matched by the decorator's `retry_exceptions` tuple, or
raises an exception outside that tuple. -/
inductive WorkOutcome (α : Type) where
  | success (v : α)
  | retryableErr (msg : String)
  | fatalErr (msg : String)
deriving DecidableEq, Repr

/-- Result of the wrapped call, together with how many times the work unit was
invoked: normal return, the distinguished `RetryError` raised after exhausting
attempts (wrapping the last failure message), or an unlisted exception
propagating out of the wrapper. -/
inductive RetryResult (α : Type) where
  | ok (v : α) (invocations : Nat)
  | retryError (lastMsg : String) (invocations : Nat)
  | propagated (msg : String) (invocations : Nat)
deriving DecidableEq, Repr

/-- Number of invocations of the work unit recorded in a `RetryResult`. -/
def RetryResult.invocations : RetryResult α → Nat
  | .ok _ n => n
  | .retryError _ n => n
  | .propagated _ n => n

/-- The `for attempt in range(max_retries + 1)` loop of `exponential_backoff`:
`attempt` is the 0-based index of the current invocation and `remaining` is
`max_retries - attempt`.  On success the result is returned; on a retryable
exception the loop raises `RetryError` when `attempt == max_retries`
(`remaining = 0`) and otherwise sleeps and continues; any other exception is
not caught and propagates.  The sleep and the jittered delay update affect
timing only, never the returned value, so they are not modelled. -/
def backoffGo (work : Nat → WorkOutcome α) (attempt : Nat) : Nat → RetryResult α
  | 0 =>
    match work attempt with
    | .success v => .ok v (attempt + 1)
    | .fatalErr m => .propagated m (attempt + 1)
    | .retryableErr m => .retryError m (attempt + 1)
  | remaining + 1 =>
    match work attempt with
    | .success v => .ok v (attempt + 1)
    | .fatalErr m => .propagated m (attempt + 1)
    | .retryableErr m => backoffGo work (attempt + 1) remaining

/-- `exponential_backoff(max_retries, ...)` applied to a work unit whose i-th
invocation has outcome `work i` (retry.py lines 44-106). -/
def exponential_backoff (work : Nat → WorkOutcome α) (max_retries : Nat) : RetryResult α :=
  backoffGo work 0 max_retries

/-- `async_exponential_backoff` (retry.py lines 131-193) runs the same
algorithm as the synchronous wrapper, differing only in the wait primitive
(`asyncio.sleep` vs `time.sleep`), which does not affect the result. -/
def async_exponential_backoff (work : Nat → WorkOutcome α) (max_retries : Nat) : RetryResult α :=
  exponential_backoff work max_retries

/-- Work unit failing retryably on invocations 0 and 1, succeeding on 2. -/
def workFailTwice : Nat → WorkOutcome Nat :=
  fun i => if i < 2 then .retryableErr "rate limited" else .success 42

/-- Work unit failing retryably on every invocation. -/
def workAlwaysFail : Nat → WorkOutcome Nat :=
  fun i => .retryableErr ("rate limited " ++ toString i)

/-- Work unit raising an error outside the retryable classes. -/
def workFatal : Nat → WorkOutcome Nat := fun _ => .fatalErr "value error"

/-! ## Association-list helpers modelling Python dicts keyed by strings. -/

/-- Python `d[k]` / `k in d` lookup: first entry with the given key. -/
def alistGet (l : List (String × β)) (k : String) : Option β :=
  (l.find? (fun p => p.1 = k)).map (fun p => p.2)

/-- Python `d[k] = v`: replace the entry in place if the key is present,
append it otherwise. -/
def alistSet (l : List (String × β)) (k : String) (v : β) : List (String × β) :=
  if (l.find? (fun p => p.1 = k)).isSome then
    l.map (fun p => if p.1 = k then (k, v) else p)
  else
    l ++ [(k, v)]

/-- Python `del d[k]`. -/
def alistRemove (l : List (String × β)) (k : String) : List (String × β) :=
  l.filter (fun p => ¬ p.1 = k)

/-! ## Event bus (`src/api/services/event_stream.py`, `EventStreamManager`
lines 15-106).  The payload dictionaries handed to `broadcast_event` are an
abstract type `δ`; wall-clock timestamps (`datetime.now()`) are `Nat` ticks
supplied by the caller. -/

/-- One entry of a snapshot's event history: the dict appended by
`broadcast_event` (event_stream.py lines 60-64). -/
structure HistEntry (δ : Type) where
  etype : String
  data : δ
  timestamp : Nat
deriving DecidableEq, Repr

/-- The per-keyword "last known pipeline state" snapshot kept in
`self._pipeline_state` (event_stream.py lines 52-58). -/
structure PipelineState (δ : Type) where
  status : String
  started_at : Nat
  current_step : String
  events : List (HistEntry δ)
deriving DecidableEq, Repr

/-- A formatted SSE event as produced by `_format_event`: either a live event
wrapping a payload dict, or the synthetic `state_sync` event wrapping a
snapshot. -/
inductive FormattedEvent (δ : Type) where
  | event (etype : String) (data : δ) (timestamp : Nat)
  | stateSync (snap : PipelineState δ) (timestamp : Nat)
deriving DecidableEq, Repr

/-- In-memory state of the broadcast manager: `self._connections` (keyword →
connection id → bounded queue, a queue being its list of pending formatted
events) and `self._pipeline_state` (keyword → snapshot). -/
structure EventStreamManager (δ : Type) where
  connections : List (String × List (String × List (FormattedEvent δ)))
  pipeline_state : List (String × PipelineState δ)
deriving DecidableEq, Repr

/-- The freshly constructed manager (`EventStreamManager.__init__`). -/
def EventStreamManager.init : EventStreamManager δ := ⟨[], []⟩

/-- `asyncio.Queue(maxsize=100).put` under `wait_for(..., timeout=1.0)`:
succeeds by appending when the queue has room, otherwise the producer times
out (event_stream.py lines 29 and 79-80), modelled as `none`. -/
def queuePut (q : List (FormattedEvent δ)) (e : FormattedEvent δ) :
    Option (List (FormattedEvent δ)) :=
  if q.length < 100 then some (q ++ [e]) else none

/-- `EventStreamManager.add_connection` (event_stream.py lines 26-37):
register a fresh bounded queue for `(keyword, connection_id)` and, when a
snapshot exists for the keyword, immediately enqueue a synthetic
`state_sync` event carrying it.  Returns the updated manager and the queue
handed back to the subscriber (which is the same object that was
registered). -/
def EventStreamManager.add_connection (m : EventStreamManager δ)
    (keyword connection_id : String) (now : Nat) :
    EventStreamManager δ × List (FormattedEvent δ) :=
  let queue : List (FormattedEvent δ) :=
    match alistGet m.pipeline_state keyword with
    | some snap => [FormattedEvent.stateSync snap now]
    | none => []
  let conns := alistSet ((alistGet m.connections keyword).getD []) connection_id queue
  ({ m with connections := alistSet m.connections keyword conns }, queue)

/-- `EventStreamManager.remove_connection` (event_stream.py lines 39-46). -/
def EventStreamManager.remove_connection (m : EventStreamManager δ)
    (keyword connection_id : String) : EventStreamManager δ :=
  match alistGet m.connections keyword with
  | none => m
  | some cs =>
    if (alistGet cs connection_id).isSome then
      let cs' := alistRemove cs connection_id
      if cs'.isEmpty then { m with connections := alistRemove m.connections keyword }
      else { m with connections := alistSet m.connections keyword cs' }
    else m

/-- `EventStreamManager.broadcast_event` (event_stream.py lines 48-88), one
critical section: first update the snapshot (initialize it on
`pipeline_start` with an empty event history, otherwise append the event to
an existing snapshot's history and mark terminal status on
`pipeline_complete` / `pipeline_error`), then enqueue the formatted event
into every subscriber queue for the keyword, evicting subscribers whose
enqueue does not complete. -/
def EventStreamManager.broadcast_event (m : EventStreamManager δ)
    (keyword etype : String) (data : δ) (now : Nat) : EventStreamManager δ :=
  let pstate :=
    if etype = "pipeline_start" then
      alistSet m.pipeline_state keyword
        { status := "running", started_at := now, current_step := "step1", events := [] }
    else
      match alistGet m.pipeline_state keyword with
      | some snap =>
        let snap := { snap with events := snap.events ++ [⟨etype, data, now⟩] }
        let snap :=
          if etype = "pipeline_complete" then { snap with status := "completed" }
          else if etype = "pipeline_error" then { snap with status := "failed" }
          else snap
        alistSet m.pipeline_state keyword snap
      | none => m.pipeline_state
  let conns :=
    match alistGet m.connections keyword with
    | some cs =>
      let ev := FormattedEvent.event etype data now
      let cs' := cs.filterMap (fun c =>
        match queuePut c.2 ev with
        | some q => some (c.1, q)
        | none => none)
      alistSet m.connections keyword cs'
    | none => m.connections
  { connections := conns, pipeline_state := pstate }

/-- `EventStreamManager.clear_pipeline_state` (event_stream.py lines 99-103). -/
def EventStreamManager.clear_pipeline_state (m : EventStreamManager δ)
    (keyword : String) : EventStreamManager δ :=
  { m with pipeline_state := alistRemove m.pipeline_state keyword }

/-- Whether a formatted event is a synthetic `state_sync`. -/
def FormattedEvent.isStateSync : FormattedEvent δ → Bool
  | .stateSync _ _ => true
  | _ => false

/-- Whether a formatted event is a `state_sync` whose snapshot history
contains a `pipeline_start` entry. -/
def FormattedEvent.isStateSyncContainingStart : FormattedEvent δ → Bool
  | .stateSync snap _ => snap.events.any (fun e => e.etype = "pipeline_start")
  | _ => false

/-! ## Pipeline event emitter payloads (`src/api/services/event_stream.py`,
`PipelineEventEmitter` lines 108-212). -/

/-- Python `/` on numbers: raises `ZeroDivisionError` on a zero denominator,
modelled as `none`. -/
def pyDiv (a b : ℚ) : Option ℚ :=
  if b = 0 then none else some (a / b)

/-- Python `round(x, 1)`: x rounded to one decimal place. -/
def pyRound1 (x : ℚ) : ℚ :=
  (round (x * 10) : ℤ) / 10

/-- The payload dict built by `PipelineEventEmitter.emit_step_progress`
(event_stream.py lines 146-155). -/
structure StepProgressData where
  correlation_id : String
  step : Nat
  progress : Nat
  total : Nat
  percentage : ℚ
  current_item : Option String
  message : String
deriving DecidableEq, Repr

/-- The percentage expression of `emit_step_progress` (event_stream.py line
152): `round((progress / total * 100) if total > 0 else 0, 1)`.  The division
is the fallible Python division; the guard keeps it from being evaluated when
`total == 0`. -/
def progressPercentage (progress total : Nat) : Option ℚ :=
  (if 0 < total then (pyDiv progress total).map (fun q => q * 100)
   else some 0).map pyRound1

/-- The payload dict of a `step{step}_progress` event, `none` if building it
raises (event_stream.py lines 146-155). -/
def stepProgressData (correlation_id : String) (step progress total : Nat)
    (current_item : Option String) : Option StepProgressData :=
  (progressPercentage progress total).map (fun pct =>
    { correlation_id := correlation_id
      step := step
      progress := progress
      total := total
      percentage := pct
      current_item := current_item
      message := "Step " ++ toString step ++ ": " ++ toString progress ++ "/"
        ++ toString total ++ " completed" })

/-- `PipelineEventEmitter.emit_step_progress` (event_stream.py lines 142-156):
build the progress payload and broadcast it under the event type
`step{step}_progress`; `none` if building the payload raises. -/
def PipelineEventEmitter.emit_step_progress (m : EventStreamManager StepProgressData)
    (keyword correlation_id : String) (step progress total : Nat)
    (current_item : Option String) (now : Nat) :
    Option (EventStreamManager StepProgressData) :=
  (stepProgressData correlation_id step progress total current_item).map (fun d =>
    m.broadcast_event keyword ("step" ++ toString step ++ "_progress") d now)

/-! ## Persisted data model (`src/app/models/models.py`). -/

/-- The `DiscoveredProduct` table row (models.py lines 42-117).  `id` is the
autoincrement primary key; `brand_domain` holds the result of
`normalize_domain`, which can be `None` (the column is written without
validation); timestamps are `Nat` ticks. -/
structure DiscoveredProduct where
  id : Nat
  keyword_id : Option Int
  product_page_url : String
  brand_domain : Option String
  brand_name : Option String
  facebook_page_url : Option String
  facebook_page_id : Option String
  first_discovered : Nat
  last_seen_advertising : Option Nat
  ad_campaign_duration_days : Option Int
  total_active_ads : Option Int
  min_monthly_ad_spend : Option Int
  max_monthly_ad_spend : Option Int
  estimated_monthly_ad_spend : Option Int
  min_monthly_impressions : Option Int
  max_monthly_impressions : Option Int
  estimated_monthly_impressions : Option Int
  advertising_platforms_count : Option Int
  advertising_platforms : Option String
  target_countries_count : Option Int
  target_countries : Option String
  features_discount_offer : Option Bool
  features_urgency_language : Option Bool
  features_purchase_cta : Option Bool
  features_social_proof : Option Bool
  features_free_shipping : Option Bool
  primary_call_to_action : Option String
  ad_creative_themes : Option String
deriving DecidableEq, Repr

/-- The `TrafficIntelligence` table row (models.py lines 120-155), restricted
to the columns the verified code paths touch.  models.py declares
`monthly_visits` as a read alias for `estimated_monthly_website_visits`
(lines 150-152). -/
structure TrafficIntelligence where
  id : Nat
  discovered_product_id : Nat
  estimated_monthly_website_visits : Option Int
  data_source : Option String
deriving DecidableEq, Repr

/-- The `monthly_visits` backward-compatibility property (models.py lines
150-152). -/
def TrafficIntelligence.monthly_visits (t : TrafficIntelligence) : Option Int :=
  t.estimated_monthly_website_visits

/-- Autoincrement primary key for a fresh row: one more than the largest id
in the table. -/
def freshId (ids : List Nat) : Nat :=
  ids.foldr max 0 + 1

/-! ## Discovered-product upsert
(`src/app/core/step1_keyword_scraper.py`, `upsert_discovered_product`
lines 138-255).  `normalize_domain` (tldextract-based, lines 100-115) is an
oracle parameter.  A database session is the list of `DiscoveredProduct`
rows; `datetime.now()` is the tick `now`. -/

/-- The `ad_intelligence` dict of a scraped product
(`product_data.get('ad_intelligence', {})`); a missing key is `none`. -/
structure AdIntelligence where
  estimated_monthly_ad_spend : Option Int
  min_monthly_ad_spend : Option Int
  max_monthly_ad_spend : Option Int
  estimated_monthly_impressions : Option Int
  min_monthly_impressions : Option Int
  max_monthly_impressions : Option Int
  ad_campaign_duration_days : Option Int
  total_active_ads : Option Int
  advertising_platforms_count : Option Int
  advertising_platforms : Option String
  target_countries_count : Option Int
  target_countries : Option String
  features_discount_offer : Option Bool
  features_urgency_language : Option Bool
  features_purchase_cta : Option Bool
  features_social_proof : Option Bool
  features_free_shipping : Option Bool
  primary_call_to_action : Option String
  ad_creative_themes : Option String
deriving DecidableEq, Repr

/-- The `product_data` dict handed to the upsert. -/
structure ProductData where
  product_page_url : String
  brand_name : Option String
  facebook_page_url : Option String
  facebook_page_id : Option String
  ad_intelligence : AdIntelligence
deriving DecidableEq, Repr

/-- The update branch of `upsert_discovered_product`
(step1_keyword_scraper.py lines 156-211): each intelligence block (spend,
impressions, duration, platforms, countries) is overwritten only when the
incoming best estimate is strictly greater than the stored one (`None` read
as 0 by `dict.get(key, 0)` and `x or 0`), while the marketing psychology
feature flags and `last_seen_advertising` are always overwritten. -/
def applyIntelligenceUpdate (existing : DiscoveredProduct)
    (intelligence : AdIntelligence) (now : Nat) : DiscoveredProduct :=
  let new_spend := intelligence.estimated_monthly_ad_spend.getD 0
  let e := existing
  let e := if new_spend > e.estimated_monthly_ad_spend.getD 0 then
      { e with min_monthly_ad_spend := intelligence.min_monthly_ad_spend
               max_monthly_ad_spend := intelligence.max_monthly_ad_spend
               estimated_monthly_ad_spend := some new_spend }
    else e
  let new_impressions := intelligence.estimated_monthly_impressions.getD 0
  let e := if new_impressions > e.estimated_monthly_impressions.getD 0 then
      { e with min_monthly_impressions := intelligence.min_monthly_impressions
               max_monthly_impressions := intelligence.max_monthly_impressions
               estimated_monthly_impressions := some new_impressions }
    else e
  let new_duration := intelligence.ad_campaign_duration_days.getD 0
  let e := if new_duration > e.ad_campaign_duration_days.getD 0 then
      { e with ad_campaign_duration_days := some new_duration }
    else e
  let new_platform_count := intelligence.advertising_platforms_count.getD 0
  let e := if new_platform_count > e.advertising_platforms_count.getD 0 then
      { e with advertising_platforms_count := some new_platform_count
               advertising_platforms := intelligence.advertising_platforms }
    else e
  let new_country_count := intelligence.target_countries_count.getD 0
  let e := if new_country_count > e.target_countries_count.getD 0 then
      { e with target_countries_count := some new_country_count
               target_countries := intelligence.target_countries }
    else e
  { e with
    features_discount_offer := intelligence.features_discount_offer
    features_urgency_language := intelligence.features_urgency_language
    features_purchase_cta := intelligence.features_purchase_cta
    features_social_proof := intelligence.features_social_proof
    features_free_shipping := intelligence.features_free_shipping
    primary_call_to_action := intelligence.primary_call_to_action
    ad_creative_themes := intelligence.ad_creative_themes
    last_seen_advertising := some now }

/-- The insert branch of `upsert_discovered_product`
(step1_keyword_scraper.py lines 212-255): the fresh `DiscoveredProduct` row. -/
def newDiscoveredRow (normalize_domain : String → Option String)
    (session : List DiscoveredProduct) (product_data : ProductData)
    (keyword_id : Option Int) (now : Nat) : DiscoveredProduct :=
  let intelligence := product_data.ad_intelligence
  { id := freshId (session.map (fun p => p.id))
    keyword_id := keyword_id
    product_page_url := product_data.product_page_url
    brand_domain := normalize_domain product_data.product_page_url
    brand_name := product_data.brand_name
    facebook_page_url := product_data.facebook_page_url
    facebook_page_id := product_data.facebook_page_id
    first_discovered := now
    last_seen_advertising := some now
    ad_campaign_duration_days := intelligence.ad_campaign_duration_days
    total_active_ads := intelligence.total_active_ads
    min_monthly_ad_spend := intelligence.min_monthly_ad_spend
    max_monthly_ad_spend := intelligence.max_monthly_ad_spend
    estimated_monthly_ad_spend := intelligence.estimated_monthly_ad_spend
    min_monthly_impressions := intelligence.min_monthly_impressions
    max_monthly_impressions := intelligence.max_monthly_impressions
    estimated_monthly_impressions := intelligence.estimated_monthly_impressions
    advertising_platforms_count := intelligence.advertising_platforms_count
    advertising_platforms := intelligence.advertising_platforms
    target_countries_count := intelligence.target_countries_count
    target_countries := intelligence.target_countries
    features_discount_offer := intelligence.features_discount_offer
    features_urgency_language := intelligence.features_urgency_language
    features_purchase_cta := intelligence.features_purchase_cta
    features_social_proof := intelligence.features_social_proof
    features_free_shipping := intelligence.features_free_shipping
    primary_call_to_action := intelligence.primary_call_to_action
    ad_creative_themes := intelligence.ad_creative_themes }

/-- `upsert_discovered_product(session, product_data, keyword_id)`
(step1_keyword_scraper.py lines 138-255).  Looks up the first row whose
`brand_domain` equals the normalized domain of the product page URL; updates
it in place when present, inserts a fresh row otherwise.  Returns the new
table and `True` iff a new row was created. -/
def upsert_discovered_product (normalize_domain : String → Option String)
    (session : List DiscoveredProduct) (product_data : ProductData)
    (keyword_id : Option Int) (now : Nat) : List DiscoveredProduct × Bool :=
  let brand_domain := normalize_domain product_data.product_page_url
  match session.find? (fun p => p.brand_domain = brand_domain) with
  | some existing =>
    (session.map (fun p => if p.id = existing.id then
        applyIntelligenceUpdate existing product_data.ad_intelligence now
      else p), false)
  | none =>
    (session ++ [newDiscoveredRow normalize_domain session product_data keyword_id now], true)

/-- Number of rows stored for a given (normalized) domain. -/
def countDomain (session : List DiscoveredProduct) (d : Option String) : Nat :=
  session.countP (fun p => p.brand_domain = d)

/-! ## Traffic-record upsert (`src/app/core/free_traffic_analyzer.py`,
`save_traffic_data` lines 182-218).  The table is the list of
`TrafficIntelligence` rows. -/

/-- The declared fields (mapped columns) of the `TrafficIntelligence`
SQLModel table (models.py lines 120-143).  `monthly_visits` is NOT among
them: it is a getter-only `@property` (models.py lines 150-152) with no
setter and no SQLAlchemy synonym; `domain` and `updated_at` are not
declared either.  On a `table=True` SQLModel row, writing or constructing
through a name outside this list reaches no column. -/
def trafficIntelligenceColumns : List String :=
  ["id", "discovered_product_id", "estimated_monthly_website_visits",
   "website_global_rank", "website_country_rank", "bounce_rate_percentage",
   "avg_session_duration_seconds", "pages_per_session",
   "direct_traffic_percentage", "search_traffic_percentage",
   "social_traffic_percentage", "paid_traffic_percentage", "data_source",
   "data_confidence_level", "data_collected_at", "error_message"]

/-- `save_traffic_data(domain, product_id, visits, source)`
(free_traffic_analyzer.py lines 182-218): query the row for
`discovered_product_id == product_id`.
Update branch (lines 199-203): `existing.monthly_visits = visits` assigns a
name outside `trafficIntelligenceColumns` — a getter-only property — so the
visits value reaches no column; `existing.data_source = source` is a
declared column and is written; `existing.updated_at = ...` is again not a
declared field.  (On configurations where the non-field assignment raises
instead of being discarded, the function's own `except` swallows the error
and not even `data_source` changes; under both readings the visits column is
untouched, which is all the verified property relies on.)
Insert branch (lines 206-213): the constructor kwargs `domain=`,
`monthly_visits=` and `updated_at=` are not declared fields and are dropped,
so the fresh row's `estimated_monthly_website_visits` keeps its default
`None`; `data_source` and `discovered_product_id` are declared and stored. -/
def save_traffic_data (domain : String) (product_id : Nat) (visits : Option Int)
    (source : String) (table : List TrafficIntelligence) : List TrafficIntelligence :=
  match table.find? (fun t => t.discovered_product_id = product_id) with
  | some existing =>
    table.map (fun t => if t.id = existing.id then
      { t with data_source := some source }
      else t)
  | none =>
    table ++ [{ id := freshId (table.map (fun t => t.id))
                discovered_product_id := product_id
                estimated_monthly_website_visits := none
                data_source := some source }]

/-- Number of traffic rows stored for a given product id. -/
def countTraffic (table : List TrafficIntelligence) (product_id : Nat) : Nat :=
  table.countP (fun t => t.discovered_product_id = product_id)

/-- Concrete domain normalizer used by the C3 witness. -/
def normW : String → Option String := fun _ => some "glowbrand.example"

/-- First persist of the C3 witness: modest estimates. -/
def pdW1 : ProductData :=
  { product_page_url := "https://glowbrand.example/p1"
    brand_name := some "Glow"
    facebook_page_url := none
    facebook_page_id := none
    ad_intelligence :=
      { estimated_monthly_ad_spend := some 100
        min_monthly_ad_spend := some 50
        max_monthly_ad_spend := some 150
        estimated_monthly_impressions := some 1000
        min_monthly_impressions := some 500
        max_monthly_impressions := some 1500
        ad_campaign_duration_days := some 10
        total_active_ads := some 2
        advertising_platforms_count := none
        advertising_platforms := none
        target_countries_count := none
        target_countries := none
        features_discount_offer := some false
        features_urgency_language := some false
        features_purchase_cta := some true
        features_social_proof := none
        features_free_shipping := some false
        primary_call_to_action := some "learn_more"
        ad_creative_themes := none } }

/-- Second persist of the C3 witness: strictly higher estimates and changed
feature flags. -/
def pdW2 : ProductData :=
  { product_page_url := "https://glowbrand.example/p2"
    brand_name := some "Glow"
    facebook_page_url := none
    facebook_page_id := none
    ad_intelligence :=
      { estimated_monthly_ad_spend := some 500
        min_monthly_ad_spend := some 400
        max_monthly_ad_spend := some 600
        estimated_monthly_impressions := some 5000
        min_monthly_impressions := some 4000
        max_monthly_impressions := some 6000
        ad_campaign_duration_days := some 30
        total_active_ads := some 4
        advertising_platforms_count := some 2
        advertising_platforms := some "facebook,instagram"
        target_countries_count := none
        target_countries := none
        features_discount_offer := some true
        features_urgency_language := some true
        features_purchase_cta := some true
        features_social_proof := some false
        features_free_shipping := some true
        primary_call_to_action := some "shop_now"
        ad_creative_themes := some "discount" } }

/-! ## Run Registry and submission endpoint
(`src/api/models/schemas.py` lines 12-55, `src/api/routers/pipeline.py`,
`run_keyword_pipeline` lines 22-47). -/

/-- `PipelineStatus` (schemas.py lines 12-19). -/
inductive PipelineStatus where
  | not_started
  | running_step1
  | completed_step1
  | running_step2
  | completed_step2
  | completed
  | failed
deriving DecidableEq, Repr

/-- `KeywordStatus` (schemas.py lines 47-55), the run snapshot kept in the
`running_tasks` registry; pydantic field defaults included. -/
structure KeywordStatus where
  keyword : String
  status : PipelineStatus
  step1_products : Nat := 0
  step2_enriched : Nat := 0
  started_at : Option Nat := none
  completed_at : Option Nat := none
  duration_seconds : Option Int := none
  errors : List String := []
deriving DecidableEq, Repr

/-- Result of one `POST /pipeline/run` call: the registry afterwards, the
response body, and whether a background `run_pipeline` task was scheduled
(scheduling it is what can persist a second Keyword record or start a
duplicate run). -/
structure RunSubmission where
  running_tasks : List (String × KeywordStatus)
  response : KeywordStatus
  launched : Bool
deriving DecidableEq, Repr

/-- The entry stored and returned by the create branch of
`run_keyword_pipeline` (pipeline.py lines 33-47): built with status
`not_started` / `started_at=None`, stored in `running_tasks`, then mutated
in place to `running_step1` after `add_task` and before returning — the
registry holds the same object, so both the stored entry and the response
read `running_step1`. -/
def freshRunEntry (keyword : String) : KeywordStatus :=
  { keyword := keyword, status := .running_step1, started_at := none }

/-- `run_keyword_pipeline(request)` (pipeline.py lines 22-47): echo the
existing entry unchanged when one exists with status running_step1 or
running_step2, scheduling nothing; otherwise store a fresh entry, schedule
the background `run_pipeline` task, mark the entry running_step1 and return
it. -/
def run_keyword_pipeline (running_tasks : List (String × KeywordStatus))
    (keyword : String) : RunSubmission :=
  match alistGet running_tasks keyword with
  | some st =>
    if st.status = PipelineStatus.running_step1 ∨ st.status = PipelineStatus.running_step2 then
      { running_tasks := running_tasks, response := st, launched := false }
    else
      { running_tasks := alistSet running_tasks keyword (freshRunEntry keyword)
        response := freshRunEntry keyword
        launched := true }
  | none =>
    { running_tasks := alistSet running_tasks keyword (freshRunEntry keyword)
      response := freshRunEntry keyword
      launched := true }

/-! ## Pipeline orchestrator (`src/api/services/pipeline_service.py`,
`run_pipeline` lines 53-265).  The collaborators performing I/O are an
oracle environment: the Keyword-record session block, the offloaded
`run_scraper` call, the recent-products re-query, and the per-domain
`get_traffic_data` lookup; `Except.error` injects an exception raised at
that point.  `datetime.now()` is a tick counter threaded through the run.
`save_traffic_data` catches all of its own errors (free_traffic_analyzer.py
lines 192-218) and so contributes no raise point. -/

/-- Events emitted through `PipelineEventEmitter` during one run. -/
inductive PEvent where
  | pipelineStart
  | logEv (level : String) (msg : String)
  | step1Start
  | step1Complete (products_found : Nat)
  | step2Start
  | step2Progress (progress total : Nat) (current : Option String)
  | step2Complete (enriched processed : Nat)
  | pipelineComplete (discovered enriched : Nat)
  | pipelineError (msg : String) (step : Option Nat)
deriving DecidableEq, Repr

/-- Oracle environment for one run. -/
structure PipelineEnv where
  keywordRecord : Except String Int
  scrape : Except String (List DiscoveredProduct)
  recent : Except String (List DiscoveredProduct)
  traffic : Option String → Except String (Option Int × String)

/-- Mutable state threaded through the try body: the registry entry being
mutated in place, the events emitted so far, the domains handed to the
traffic-lookup collaborator, and the clock. -/
structure RunState where
  entry : KeywordStatus
  events : List PEvent
  trafficCalls : List (Option String)
  tick : Nat
deriving DecidableEq, Repr

/-- Append an emitted event. -/
def emitE (s : RunState) (e : PEvent) : RunState :=
  { s with events := s.events ++ [e] }

/-- Python truthiness of `Optional[int]`: `None` and `0` are falsy. -/
def pyTruthyOptInt : Option Int → Bool
  | some v => v ≠ 0
  | none => false

/-- Accumulator of the stage-2 enrichment loop. -/
structure Step2Acc where
  st : RunState
  enriched : Nat
  i : Nat
deriving DecidableEq, Repr

/-- The stage-2 loop (pipeline_service.py lines 167-198):
`for i, product in enumerate(recent_products[:10], 1)` — emit a progress
event, call the traffic lookup, count an enrichment on truthy visits; an
exception inside the body is caught per-domain, logged and appended to the
run's error list without aborting the loop. -/
def step2Loop (env : PipelineEnv) (total : Nat) :
    List DiscoveredProduct → Step2Acc → Step2Acc
  | [], acc => acc
  | product :: rest, acc =>
    let domain := product.brand_domain
    let st := emitE acc.st (.step2Progress (acc.i - 1) total domain)
    let st := { st with trafficCalls := st.trafficCalls ++ [domain] }
    match env.traffic domain with
    | .ok (visits, _source) =>
      if pyTruthyOptInt visits then
        step2Loop env total rest
          ⟨emitE st (.logEv "info" "traffic data found"), acc.enriched + 1, acc.i + 1⟩
      else
        step2Loop env total rest
          ⟨emitE st (.logEv "warning" "no traffic data available"), acc.enriched, acc.i + 1⟩
    | .error m =>
      let st := emitE st (.logEv "error" "traffic lookup failed")
      let st := { st with entry := { st.entry with
        errors := st.entry.errors ++ ["Traffic lookup failed: " ++ m] } }
      step2Loop env total rest ⟨st, acc.enriched, acc.i + 1⟩

/-- Outcome of the try body / of the whole background task: the registry
afterwards, the events emitted, the traffic-lookup invocations, the final
clock, and the exception escaping (`none` when none escapes). -/
structure PipelineOutcome where
  running_tasks : List (String × KeywordStatus)
  events : List PEvent
  trafficCalls : List (Option String)
  tick : Nat
  raised : Option String
deriving DecidableEq, Repr

/-- Write the mutated entry back (the registry holds the same object the
body mutates) and package the body outcome. -/
def mkOutcome (tasks : List (String × KeywordStatus)) (keyword : String)
    (st : RunState) (raised : Option String) : PipelineOutcome :=
  { running_tasks := alistSet tasks keyword st.entry
    events := st.events
    trafficCalls := st.trafficCalls
    tick := st.tick
    raised := raised }

/-- The try body of `run_pipeline` (pipeline_service.py lines 60-239):
fetch the registry entry (KeyError if absent), mark it running_step1 with a
start time, emit the start event, resolve the Keyword record, run stage 1,
finish early as COMPLETED on zero products, re-query recent products, run
the stage-2 loop, and finalize as COMPLETED with duration. -/
def runPipelineBody (env : PipelineEnv) (keyword : String)
    (tasks : List (String × KeywordStatus)) : PipelineOutcome :=
  match alistGet tasks keyword with
  | none =>
    { running_tasks := tasks, events := [], trafficCalls := [], tick := 0,
      raised := some "KeyError" }
  | some status0 =>
    let st : RunState :=
      { entry := { status0 with status := .running_step1, started_at := some 0 }
        events := [], trafficCalls := [], tick := 1 }
    let st := emitE st .pipelineStart
    match env.keywordRecord with
    | .error m => mkOutcome tasks keyword st (some m)
    | .ok _keyword_id =>
      let st := emitE st (.logEv "info" "keyword record resolved")
      let st := emitE st .step1Start
      match env.scrape with
      | .error m =>
        let st := emitE st (.pipelineError ("Step 1 failed: " ++ m) (some 1))
        mkOutcome tasks keyword st (some m)
      | .ok scraped_products =>
        let st := { st with entry :=
          { st.entry with step1_products := scraped_products.length } }
        let st := emitE st (.step1Complete scraped_products.length)
        if scraped_products.isEmpty then
          let st := emitE st (.logEv "warning" "No products found. Pipeline complete.")
          let st := { st with
            entry := { st.entry with status := .completed, completed_at := some st.tick }
            tick := st.tick + 1 }
          let st := emitE st (.pipelineComplete 0 0)
          mkOutcome tasks keyword st none
        else
          match env.recent with
          | .error m => mkOutcome tasks keyword st (some m)
          | .ok recent_products =>
            let st := emitE st (.logEv "info" "recent products for enrichment")
            let st := emitE st .step2Start
            let sub := recent_products.take 10
            let acc := step2Loop env sub.length sub { st := st, enriched := 0, i := 1 }
            let st := acc.st
            let st := { st with entry :=
              { st.entry with step2_enriched := acc.enriched } }
            let st := emitE st (.step2Complete acc.enriched sub.length)
            let st := { st with
              entry := { st.entry with
                completed_at := some st.tick
                duration_seconds :=
                  some ((st.tick : Int) - (st.entry.started_at.getD 0 : Int))
                status := .completed }
              tick := st.tick + 1 }
            let st := emitE st
              (.pipelineComplete st.entry.step1_products st.entry.step2_enriched)
            mkOutcome tasks keyword st none

/-- The except branch of `run_pipeline` (pipeline_service.py lines 248-254):
mark the entry FAILED, append the error message, record the completion time
and compute the duration only when `started_at` is set. -/
def pipelineFailureHandler (entry : KeywordStatus) (error_msg : String)
    (now : Nat) : KeywordStatus :=
  let e := { entry with status := PipelineStatus.failed
                        errors := entry.errors ++ [error_msg]
                        completed_at := some now }
  if e.started_at.isSome then
    { e with duration_seconds := some ((now : Int) - (e.started_at.getD 0 : Int)) }
  else e

/-- `run_pipeline(keyword, config)` (pipeline_service.py lines 53-265): run
the try body; an escaping exception is caught at the top level — an error
event is emitted, the entry (when resident) is updated by the failure
handler — and is not re-raised to the caller (`raised` is always `none`). -/
def run_pipeline (env : PipelineEnv) (keyword : String)
    (tasks : List (String × KeywordStatus)) : PipelineOutcome :=
  let body := runPipelineBody env keyword tasks
  match body.raised with
  | none => body
  | some m =>
    let error_msg := "Pipeline failed: " ++ m
    let events := body.events ++ [PEvent.pipelineError error_msg none]
    let tasks' :=
      match alistGet body.running_tasks keyword with
      | some status =>
        alistSet body.running_tasks keyword
          (pipelineFailureHandler status error_msg body.tick)
      | none => body.running_tasks
    { running_tasks := tasks', events := events,
      trafficCalls := body.trafficCalls, tick := body.tick + 1, raised := none }

/-- Environment where every collaborator succeeds and stage 1 finds nothing. -/
def envZero : PipelineEnv :=
  { keywordRecord := .ok 1, scrape := .ok [], recent := .ok []
    traffic := fun _ => .ok (none, "no data") }

/-- Environment where the stage-1 scrape raises. -/
def envScrapeFail : PipelineEnv :=
  { keywordRecord := .ok 1, scrape := .error "Apify run timed out", recent := .ok []
    traffic := fun _ => .ok (none, "no data") }

/-- Registry holding the fresh entry the submit endpoint created for "demo". -/
def tasksDemo : List (String × KeywordStatus) := [("demo", freshRunEntry "demo")]

/-! ## Status reconstruction (`src/api/services/pipeline_service.py`,
`get_keyword_status` lines 268-311). -/

/-- The attributes that exist on the `DiscoveredProduct` class
(models.py lines 42-117): mapped columns, the backward-compatibility
properties, and the relationships.  Python resolves
`DiscoveredProduct.<name>` against these; any other name raises
`AttributeError`. -/
def discoveredProductAttrs : List String :=
  ["id", "keyword_id", "product_page_url", "brand_domain", "brand_name",
   "facebook_page_url", "facebook_page_id", "first_discovered",
   "last_seen_advertising", "ad_campaign_duration_days", "total_active_ads",
   "min_monthly_ad_spend", "max_monthly_ad_spend", "estimated_monthly_ad_spend",
   "min_monthly_impressions", "max_monthly_impressions",
   "estimated_monthly_impressions", "advertising_platforms_count",
   "advertising_platforms", "target_countries_count", "target_countries",
   "features_discount_offer", "features_urgency_language",
   "features_purchase_cta", "features_social_proof", "features_free_shipping",
   "primary_call_to_action", "ad_creative_themes",
   "landing_url", "root_domain", "days_running", "avg_ad_spend",
   "avg_impressions", "keyword", "traffic_intelligence", "content_analysis"]

/-- Python class-attribute lookup on `DiscoveredProduct`. -/
def discoveredProductClassAttr (name : String) : Except String String :=
  if name ∈ discoveredProductAttrs then Except.ok name
  else Except.error
    ("AttributeError: type object DiscoveredProduct has no attribute " ++ name)

/-- `get_keyword_status(keyword)` (pipeline_service.py lines 268-311): return
the resident registry entry when present; otherwise build the query
`select(DiscoveredProduct).where(DiscoveredProduct.discovery_keyword == keyword)`
(line 279) — evaluating `DiscoveredProduct.discovery_keyword` is a
class-attribute lookup that happens before any row is filtered, and
`discovery_keyword` is not an attribute of the model (it exists only on the
`ProductResult` response schema), so the lookup raises and the promised
reconstruction (which would also read the nonexistent per-row attribute
`discovered_at`, line 288) never executes. -/
def get_keyword_status (running_tasks : List (String × KeywordStatus))
    (db : List DiscoveredProduct) (keyword : String) :
    Except String (Option KeywordStatus) :=
  match alistGet running_tasks keyword with
  | some st => Except.ok (some st)
  | none =>
    match discoveredProductClassAttr "discovery_keyword" with
    | Except.error e => Except.error e
    | Except.ok _ => Except.ok none

/-- Follows the spec's words (spec.md section 4.3), for comparison with the
source's `get_keyword_status`: query the entities tied to the keyword
(through the Keyword row's id), and if any exist reconstruct a COMPLETED
view whose step1 count is the number of entities, whose start/end times are
the min/max discovery timestamps, and whose enrichment count is the number
of entities with a positive traffic estimate; otherwise signal not-found. -/
def get_keyword_status_specified (running_tasks : List (String × KeywordStatus))
    (keywords : List (Nat × String)) (db : List DiscoveredProduct)
    (traffic : List TrafficIntelligence) (keyword : String) : Option KeywordStatus :=
  match alistGet running_tasks keyword with
  | some st => some st
  | none =>
    let products := db.filter (fun p =>
      match keywords.find? (fun kw => kw.2 = keyword) with
      | some kw => p.keyword_id = some (kw.1 : Int)
      | none => false)
    if products.isEmpty then none
    else
      let times := products.map (fun p => p.first_discovered)
      some { keyword := keyword
             status := PipelineStatus.completed
             step1_products := products.length
             step2_enriched := products.countP (fun p =>
               traffic.any (fun t =>
                 decide (t.discovered_product_id = p.id)
                   && pyTruthyOptInt t.monthly_visits))
             started_at := times.min?
             completed_at := times.max?
             duration_seconds :=
               match times.min?, times.max? with
               | some a, some b => some ((b : Int) - (a : Int))
               | _, _ => none }

/-- A persisted entity tied (via `keyword_id = 1`, the id of the Keyword row
for "demo") to the keyword "demo". -/
def prodDemo : DiscoveredProduct :=
  { id := 1
    keyword_id := some 1
    product_page_url := "https://shop.example/item"
    brand_domain := some "shop.example"
    brand_name := some "Shop"
    facebook_page_url := none
    facebook_page_id := none
    first_discovered := 5
    last_seen_advertising := some 6
    ad_campaign_duration_days := some 10
    total_active_ads := some 1
    min_monthly_ad_spend := none
    max_monthly_ad_spend := none
    estimated_monthly_ad_spend := some 100
    min_monthly_impressions := none
    max_monthly_impressions := none
    estimated_monthly_impressions := none
    advertising_platforms_count := none
    advertising_platforms := none
    target_countries_count := none
    target_countries := none
    features_discount_offer := none
    features_urgency_language := none
    features_purchase_cta := none
    features_social_proof := none
    features_free_shipping := none
    primary_call_to_action := none
    ad_creative_themes := none }

/-! ## Delete endpoint (`src/api/routers/results.py`, `delete_results`
lines 391-429). -/

/-- Decimal digit value of a character. -/
def digitVal (c : Char) : Option Nat :=
  if c.toNat ≥ 48 ∧ c.toNat ≤ 57 then some (c.toNat - 48) else none

/-- Read a nonempty all-digit character list as a natural number. -/
def digitsToNatGo : List Char → Nat → Option Nat
  | [], acc => some acc
  | c :: rest, acc =>
    match digitVal c with
    | some d => digitsToNatGo rest (acc * 10 + d)
    | none => none

/-- `none` unless the list is nonempty and all digits. -/
def digitsToNat : List Char → Option Nat
  | [] => none
  | cs => digitsToNatGo cs 0

/-- The integer a TEXT value converts to under SQLite numeric affinity
(integer forms only; a text like "demo" converts to nothing). -/
def sqliteTextToInt (s : String) : Option Int :=
  match s.data with
  | '-' :: rest => (digitsToNat rest).map (fun n => -(n : Int))
  | l => (digitsToNat l).map (fun n => (n : Int))

/-- SQLite equality between an INTEGER-affinity column value and a TEXT
literal: the text is converted to a number when possible and compared;
text that does not convert never equals an integer value. -/
def sqliteIntEqText (n : Int) (s : String) : Bool :=
  match sqliteTextToInt s with
  | some m => n = m
  | none => false

/-- State after a `DELETE /results/{keyword}` call: the two tables, the
registry, the in-memory log-buffer keys, and the HTTP response (`error` is
the 404 detail). -/
structure DeleteOutcome where
  db : List DiscoveredProduct
  traffic : List TrafficIntelligence
  running_tasks : List (String × KeywordStatus)
  task_logs : List String
  response : Except String String
deriving Repr

/-- `delete_results(keyword)` (results.py lines 391-429): select the
products with `DiscoveredProduct.keyword_id == keyword` — the integer
foreign-key column compared against the keyword string itself (line 398),
not against the id of the Keyword row as the sibling endpoints do — then
404 when none match, otherwise delete their traffic rows, delete them,
commit, and drop the registry entry and log buffer. -/
def delete_results (keyword : String) (db : List DiscoveredProduct)
    (traffic : List TrafficIntelligence)
    (running_tasks : List (String × KeywordStatus)) (task_logs : List String) :
    DeleteOutcome :=
  let products := db.filter (fun p =>
    match p.keyword_id with
    | some kid => sqliteIntEqText kid keyword
    | none => false)
  if products.isEmpty then
    { db := db, traffic := traffic, running_tasks := running_tasks,
      task_logs := task_logs,
      response := Except.error ("No results found for keyword: " ++ keyword) }
  else
    let product_ids := products.map (fun p => p.id)
    { db := db.filter (fun p => ¬ p.id ∈ product_ids)
      traffic := traffic.filter (fun t => ¬ t.discovered_product_id ∈ product_ids)
      running_tasks := alistRemove running_tasks keyword
      task_logs := task_logs.filter (fun k => ¬ k = keyword)
      response := Except.ok ("Deleted all results for keyword: " ++ keyword) }

/-- A stored traffic row for the entity `prodDemo`. -/
def trafDemo : TrafficIntelligence :=
  { id := 1, discovered_product_id := 1,
    estimated_monthly_website_visits := some 1200, data_source := some "free_analysis" }

/-! ## Theorems -/

theorem backoffGo_invocations_le (work : Nat → WorkOutcome α) :
    ∀ remaining attempt, (backoffGo work attempt remaining).invocations ≤ attempt + remaining + 1 := by
  intro remaining
  induction remaining with
  | zero =>
    intro attempt
    unfold backoffGo
    cases work attempt <;> simp [RetryResult.invocations]
  | succ r ih =>
    intro attempt
    unfold backoffGo
    cases work attempt with
    | success v => simp [RetryResult.invocations]
    | fatalErr m => simp [RetryResult.invocations]
    | retryableErr m =>
      exact le_trans (ih (attempt + 1)) (by omega)

/-- C2: For every work unit and every max_retries n >= 0, the retry helper
invokes the work at most n+1 times; a work unit that fails twice with a
retryable error and then succeeds returns the success value after exactly 3
invocations when max_retries = 3; a work unit that always fails with a
retryable error makes the helper raise the exhaustion `RetryError` wrapping
the last failure after exactly 3 invocations when max_retries = 2; an error
outside the designated retryable classes propagates immediately after a
single invocation; and the async wrapper computes the same result as the
synchronous one. -/
theorem retry_helper_spec :
    (∀ (α : Type) (work : Nat → WorkOutcome α) (n : Nat),
        (exponential_backoff work n).invocations ≤ n + 1)
    ∧ (∀ (α : Type) (work : Nat → WorkOutcome α) (v : α) (m0 m1 : String),
        work 0 = .retryableErr m0 → work 1 = .retryableErr m1 → work 2 = .success v →
          exponential_backoff work 3 = .ok v 3)
    ∧ (∀ (α : Type) (work : Nat → WorkOutcome α) (m : Nat → String),
        (∀ i, work i = .retryableErr (m i)) →
          exponential_backoff work 2 = .retryError (m 2) 3)
    ∧ (∀ (α : Type) (work : Nat → WorkOutcome α) (n : Nat) (msg : String),
        work 0 = .fatalErr msg →
          exponential_backoff work n = .propagated msg 1)
    ∧ (∀ (α : Type) (work : Nat → WorkOutcome α) (n : Nat),
        async_exponential_backoff work n = exponential_backoff work n) := by
  refine ⟨?_, ?_, ?_, ?_, ?_⟩
  · intro α work n
    have h := backoffGo_invocations_le work n 0
    simpa [exponential_backoff] using h
  · intro α work v m0 m1 h0 h1 h2
    simp [exponential_backoff, backoffGo, h0, h1, h2]
  · intro α work m h
    simp [exponential_backoff, backoffGo, h 0, h 1, h 2]
  · intro α work n msg h
    cases n <;> simp [exponential_backoff, backoffGo, h]
  · intro α work n
    rfl

/-- Witness for C2 at concrete work units. -/
theorem retry_helper_spec_witness :
    (exponential_backoff workFailTwice 3).invocations ≤ 4
    ∧ exponential_backoff workFailTwice 3 = .ok 42 3
    ∧ exponential_backoff workAlwaysFail 2 = .retryError ("rate limited " ++ toString 2) 3
    ∧ exponential_backoff workFatal 7 = .propagated "value error" 1
    ∧ async_exponential_backoff workFailTwice 3 = exponential_backoff workFailTwice 3 :=
  ⟨retry_helper_spec.1 Nat workFailTwice 3,
   retry_helper_spec.2.1 Nat workFailTwice 42 "rate limited" "rate limited" rfl rfl rfl,
   retry_helper_spec.2.2.1 Nat workAlwaysFail (fun i => "rate limited " ++ toString i)
     (fun i => rfl),
   retry_helper_spec.2.2.2.1 Nat workFatal 7 "value error" rfl,
   retry_helper_spec.2.2.2.2 Nat workFailTwice 3⟩

theorem alistGet_none_find? {l : List (String × β)} {k : String}
    (h : alistGet l k = none) : l.find? (fun p => p.1 = k) = none := by
  unfold alistGet at h
  exact Option.map_eq_none.mp h

theorem alistSet_of_get_none {l : List (String × β)} {k : String} (v : β)
    (h : alistGet l k = none) : alistSet l k v = l ++ [(k, v)] := by
  unfold alistSet
  simp [alistGet_none_find? h]

theorem alistGet_append_single {l : List (String × β)} {k : String} (v : β)
    (h : alistGet l k = none) : alistGet (l ++ [(k, v)]) k = some v := by
  unfold alistGet
  rw [List.find?_append, alistGet_none_find? h]
  simp [List.find?]

theorem alistSet_append_single {l : List (String × β)} {k : String} (v w : β)
    (h : alistGet l k = none) : alistSet (l ++ [(k, w)]) k v = l ++ [(k, v)] := by
  unfold alistSet
  have hfind : List.find? (fun p => p.1 = k) (l ++ [(k, w)]) = some (k, w) := by
    rw [List.find?_append, alistGet_none_find? h]
    simp [List.find?]
  rw [hfind]
  simp only [Option.isSome_some, if_true, List.map_append]
  have hl : l.map (fun p => if p.1 = k then (k, v) else p) = l := by
    apply List.map_congr_left ?_ |>.trans l.map_id
    intro p hp
    have := (List.find?_eq_none.mp (alistGet_none_find? h)) p hp
    simp at this
    simp [this]
  rw [hl]
  simp

/-- C10: For every step-progress emission with counters (progress, total),
the percentage field of the payload equals round(progress/total*100, 1) when
total > 0 and equals 0 when total == 0; the division sits behind the
`total > 0` guard, so building and emitting the progress event never
fails, in particular not on a zero total. -/
theorem step_progress_percentage_guarded :
    (∀ (cid : String) (s p t : Nat) (ci : Option String),
        ∃ d, stepProgressData cid s p t ci = some d
          ∧ d.percentage = (if 0 < t then pyRound1 ((p : ℚ) / t * 100) else 0))
    ∧ (∀ (m : EventStreamManager StepProgressData) (kw cid : String)
        (s p t : Nat) (ci : Option String) (now : Nat),
        (PipelineEventEmitter.emit_step_progress m kw cid s p t ci now).isSome) := by
  have hpct : ∀ (p t : Nat),
      progressPercentage p t = some (if 0 < t then pyRound1 ((p : ℚ) / t * 100) else 0) := by
    intro p t
    unfold progressPercentage pyDiv
    by_cases ht : 0 < t
    · have : (t : ℚ) ≠ 0 := by
        exact_mod_cast Nat.pos_iff_ne_zero.mp ht
      simp [ht, this]
    · simp [ht, pyRound1]
  constructor
  · intro cid s p t ci
    refine ⟨{ correlation_id := cid, step := s, progress := p, total := t,
              percentage := if 0 < t then pyRound1 ((p : ℚ) / t * 100) else 0,
              current_item := ci,
              message := "Step " ++ toString s ++ ": " ++ toString p ++ "/"
                ++ toString t ++ " completed" }, ?_, rfl⟩
    unfold stepProgressData
    rw [hpct p t]
    rfl
  · intro m kw cid s p t ci now
    unfold PipelineEventEmitter.emit_step_progress stepProgressData
    rw [hpct p t]
    rfl

/-- C5 (amended): For every keyword whose run has no prior snapshot, once a
"pipeline_start" event has been published (so a snapshot exists), a
subsequent subscribe immediately enqueues a synthetic state_sync event as
the sole element of the new subscriber's queue, ahead of any new live
event, and that state_sync carries the snapshot the start event initialized
(status "running", current step "step1", started at the start event's time)
whose event history is empty — the previously published start event itself
is not recorded in the history; a later live event is delivered to the
subscriber after the state_sync. -/
theorem event_bus_late_joiner_state_sync
    (δ : Type) (m : EventStreamManager δ) (k cid : String) (d d2 : δ)
    (et : String) (t0 t1 t2 : Nat)
    (hsnap : alistGet m.pipeline_state k = none)
    (hconn : alistGet m.connections k = none)
    (het : ¬ et = "pipeline_start") :
    (m.broadcast_event k "pipeline_start" d t0 |>.add_connection k cid t1).2
      = [FormattedEvent.stateSync
          { status := "running", started_at := t0, current_step := "step1", events := [] } t1]
    ∧ alistGet ((alistGet
        (m.broadcast_event k "pipeline_start" d t0 |>.add_connection k cid t1).1.connections
        k).getD []) cid
      = some [FormattedEvent.stateSync
          { status := "running", started_at := t0, current_step := "step1", events := [] } t1]
    ∧ alistGet ((alistGet
        ((m.broadcast_event k "pipeline_start" d t0 |>.add_connection k cid t1).1.broadcast_event
          k et d2 t2).connections k).getD []) cid
      = some [FormattedEvent.stateSync
          { status := "running", started_at := t0, current_step := "step1", events := [] } t1,
          FormattedEvent.event et d2 t2] := by
  have hS : alistGet (m.broadcast_event k "pipeline_start" d t0).pipeline_state k
      = some { status := "running", started_at := t0, current_step := "step1", events := [] } := by
    unfold EventStreamManager.broadcast_event
    simp only [if_pos rfl]
    rw [alistSet_of_get_none _ hsnap]
    exact alistGet_append_single _ hsnap
  have hC : (m.broadcast_event k "pipeline_start" d t0).connections = m.connections := by
    unfold EventStreamManager.broadcast_event
    rw [hconn]
  have hq : (m.broadcast_event k "pipeline_start" d t0 |>.add_connection k cid t1).2
      = [FormattedEvent.stateSync
          { status := "running", started_at := t0, current_step := "step1", events := [] } t1] := by
    unfold EventStreamManager.add_connection
    rw [hS]
  have hconn2 : (m.broadcast_event k "pipeline_start" d t0 |>.add_connection k cid t1).1.connections
      = m.connections ++ [(k, [(cid, [FormattedEvent.stateSync
          { status := "running", started_at := t0, current_step := "step1", events := [] } t1])])] := by
    unfold EventStreamManager.add_connection
    rw [hS]
    simp only [hC, hconn, Option.getD_none]
    rw [alistSet_of_get_none _ hconn]
    rfl
  refine ⟨hq, ?_, ?_⟩
  · rw [hconn2, alistGet_append_single _ hconn]
    simp [alistGet, List.find?]
  · set M2 := ((m.broadcast_event k "pipeline_start" d t0).add_connection k cid t1).1 with hM2
    unfold EventStreamManager.broadcast_event
    rw [hconn2, alistGet_append_single _ hconn]
    simp only [queuePut, List.filterMap]
    norm_num
    rw [alistSet_append_single _ _ hconn, alistGet_append_single _ hconn]
    simp [alistGet, List.find?]

/-- Witness for C5 (amended) at a concrete manager and keyword. -/
theorem event_bus_late_joiner_state_sync_witness :
    alistGet (EventStreamManager.init (δ := Nat)).pipeline_state "demo" = none
    ∧ alistGet (EventStreamManager.init (δ := Nat)).connections "demo" = none
    ∧ ¬ "step1_start" = "pipeline_start"
    ∧ (((EventStreamManager.init (δ := Nat)).broadcast_event "demo" "pipeline_start" 7 0
        |>.add_connection "demo" "c1" 1).2
      = [FormattedEvent.stateSync
          { status := "running", started_at := 0, current_step := "step1", events := [] } 1]
      ∧ alistGet ((alistGet
          (((EventStreamManager.init (δ := Nat)).broadcast_event "demo" "pipeline_start" 7 0
            |>.add_connection "demo" "c1" 1)).1.connections "demo").getD []) "c1"
        = some [FormattedEvent.stateSync
            { status := "running", started_at := 0, current_step := "step1", events := [] } 1]
      ∧ alistGet ((alistGet
          ((((EventStreamManager.init (δ := Nat)).broadcast_event "demo" "pipeline_start" 7 0
            |>.add_connection "demo" "c1" 1)).1.broadcast_event
              "demo" "step1_start" 9 2).connections "demo").getD []) "c1"
        = some [FormattedEvent.stateSync
            { status := "running", started_at := 0, current_step := "step1", events := [] } 1,
            FormattedEvent.event "step1_start" 9 2]) :=
  ⟨rfl, rfl, by decide,
   event_bus_late_joiner_state_sync Nat EventStreamManager.init "demo" "c1" 7 9
     "step1_start" 0 1 2 rfl rfl (by decide)⟩

/-- C5 counterexample: after publishing a "pipeline_start" event for keyword
"demo" on a fresh manager, a new subscriber's queue does receive a synthetic
state_sync event, but the snapshot it carries has an empty event history, so
the history does not contain the previously published start event as the
claim states. -/
theorem event_bus_state_sync_history_counterexample :
    (((EventStreamManager.init (δ := Nat)).broadcast_event "demo" "pipeline_start" 7 0
        |>.add_connection "demo" "c1" 1).2.any FormattedEvent.isStateSync = true)
    ∧ (((EventStreamManager.init (δ := Nat)).broadcast_event "demo" "pipeline_start" 7 0
        |>.add_connection "demo" "c1" 1).2.any FormattedEvent.isStateSyncContainingStart = false) :=
  ⟨rfl, rfl⟩

theorem mem_le_foldr_max (x : Nat) (ids : List Nat) (h : x ∈ ids) :
    x ≤ ids.foldr max 0 := by
  induction ids with
  | nil => cases h
  | cons a as ih =>
    cases h with
    | head => exact le_max_left _ _
    | tail _ hmem => exact le_trans (ih hmem) (le_max_right _ _)

theorem freshId_not_mem (ids : List Nat) : ¬ freshId ids ∈ ids := by
  intro h
  have := mem_le_foldr_max _ _ h
  simp only [freshId] at this
  omega

theorem countTraffic_zero_find? {table : List TrafficIntelligence} {pid : Nat}
    (h : countTraffic table pid = 0) :
    table.find? (fun t => t.discovered_product_id = pid) = none := by
  rw [List.find?_eq_none]
  intro t ht
  have := List.countP_eq_zero.mp h t ht
  simpa using this

/-- C7 (code bug): writing a traffic record for entity id 1 with visits 100
and then rerunning with visits 2000 leaves exactly one stored row — the
rerun does not duplicate — but re-querying by the entity id returns a row
whose visits, read through the `monthly_visits` alias, are `None` rather
than the last-written value: the source routes the visits through the
getter-only `monthly_visits` property (free_traffic_analyzer.py line 200)
and the non-field constructor kwarg (line 208), so they never reach the
`estimated_monthly_website_visits` column and the promised round-trip
fails. -/
theorem traffic_roundtrip_loses_visits :
    countTraffic (save_traffic_data "shop.example" 1 (some 2000) "similarweb_api"
        (save_traffic_data "shop.example" 1 (some 100) "free_analysis" [])) 1 = 1
    ∧ ∃ t, (save_traffic_data "shop.example" 1 (some 2000) "similarweb_api"
          (save_traffic_data "shop.example" 1 (some 100) "free_analysis" [])).find?
            (fun t => t.discovered_product_id = 1) = some t
        ∧ t.monthly_visits = none
        ∧ ¬ t.monthly_visits = some 2000 :=
  ⟨rfl,
   ⟨{ id := 1, discovered_product_id := 1,
      estimated_monthly_website_visits := none,
      data_source := some "similarweb_api" },
    rfl, rfl, by decide⟩⟩

theorem countDomain_zero_find? {session : List DiscoveredProduct} {d : Option String}
    (h : countDomain session d = 0) :
    session.find? (fun p => p.brand_domain = d) = none := by
  rw [List.find?_eq_none]
  intro p hp
  have := List.countP_eq_zero.mp h p hp
  simpa using this

theorem applyIntelligenceUpdate_always_fields (e : DiscoveredProduct)
    (i : AdIntelligence) (now : Nat) :
    (applyIntelligenceUpdate e i now).features_discount_offer = i.features_discount_offer
    ∧ (applyIntelligenceUpdate e i now).features_urgency_language = i.features_urgency_language
    ∧ (applyIntelligenceUpdate e i now).features_purchase_cta = i.features_purchase_cta
    ∧ (applyIntelligenceUpdate e i now).features_social_proof = i.features_social_proof
    ∧ (applyIntelligenceUpdate e i now).features_free_shipping = i.features_free_shipping
    ∧ (applyIntelligenceUpdate e i now).primary_call_to_action = i.primary_call_to_action
    ∧ (applyIntelligenceUpdate e i now).ad_creative_themes = i.ad_creative_themes
    ∧ (applyIntelligenceUpdate e i now).last_seen_advertising = some now
    ∧ (applyIntelligenceUpdate e i now).brand_domain = e.brand_domain
    ∧ (applyIntelligenceUpdate e i now).id = e.id := by
  simp only [applyIntelligenceUpdate]
  split_ifs <;> simp

theorem applyIntelligenceUpdate_estimates (e : DiscoveredProduct)
    (i : AdIntelligence) (now : Nat) (spend2 impr2 dur2 : Int)
    (hs : i.estimated_monthly_ad_spend = some spend2)
    (hi : i.estimated_monthly_impressions = some impr2)
    (hd : i.ad_campaign_duration_days = some dur2)
    (hsp : e.estimated_monthly_ad_spend.getD 0 < spend2)
    (him : e.estimated_monthly_impressions.getD 0 < impr2)
    (hdu : e.ad_campaign_duration_days.getD 0 < dur2) :
    (applyIntelligenceUpdate e i now).estimated_monthly_ad_spend = some spend2
    ∧ (applyIntelligenceUpdate e i now).min_monthly_ad_spend = i.min_monthly_ad_spend
    ∧ (applyIntelligenceUpdate e i now).max_monthly_ad_spend = i.max_monthly_ad_spend
    ∧ (applyIntelligenceUpdate e i now).estimated_monthly_impressions = some impr2
    ∧ (applyIntelligenceUpdate e i now).min_monthly_impressions = i.min_monthly_impressions
    ∧ (applyIntelligenceUpdate e i now).max_monthly_impressions = i.max_monthly_impressions
    ∧ (applyIntelligenceUpdate e i now).ad_campaign_duration_days = some dur2 := by
  simp only [applyIntelligenceUpdate, hs, hi, hd, Option.getD_some]
  split_ifs <;> exact ⟨rfl, rfl, rfl, rfl, rfl, rfl, rfl⟩

theorem upsert_twice_core (normalize_domain : String → Option String)
    (session : List DiscoveredProduct) (pd1 pd2 : ProductData)
    (kid1 kid2 : Option Int) (t1 t2 : Nat) (dom : String)
    (hn1 : normalize_domain pd1.product_page_url = some dom)
    (hn2 : normalize_domain pd2.product_page_url = some dom)
    (hc : countDomain session (some dom) = 0) :
    countDomain (upsert_discovered_product normalize_domain
        (upsert_discovered_product normalize_domain session pd1 kid1 t1).1
        pd2 kid2 t2).1 (some dom) = 1
    ∧ (upsert_discovered_product normalize_domain
        (upsert_discovered_product normalize_domain session pd1 kid1 t1).1
        pd2 kid2 t2).1.find? (fun p => p.brand_domain = some dom)
      = some (applyIntelligenceUpdate
          (newDiscoveredRow normalize_domain session pd1 kid1 t1)
          pd2.ad_intelligence t2) := by
  have hfind : session.find? (fun p => p.brand_domain = some dom) = none :=
    countDomain_zero_find? hc
  have h1 : upsert_discovered_product normalize_domain session pd1 kid1 t1
      = (session ++ [newDiscoveredRow normalize_domain session pd1 kid1 t1], true) := by
    simp only [upsert_discovered_product]
    rw [hn1, hfind]
  have hdp1dom : (newDiscoveredRow normalize_domain session pd1 kid1 t1).brand_domain
      = some dom := hn1
  have hupd := applyIntelligenceUpdate_always_fields
    (newDiscoveredRow normalize_domain session pd1 kid1 t1) pd2.ad_intelligence t2
  have hmapses : session.map (fun p =>
      if p.id = (newDiscoveredRow normalize_domain session pd1 kid1 t1).id then
        applyIntelligenceUpdate (newDiscoveredRow normalize_domain session pd1 kid1 t1)
          pd2.ad_intelligence t2
      else p) = session := by
    apply (List.map_congr_left ?_).trans session.map_id
    intro p hpmem
    have hne : ¬ p.id = freshId (session.map (fun q : DiscoveredProduct => q.id)) := by
      intro he
      exact freshId_not_mem _
        (he ▸ List.mem_map_of_mem (fun q : DiscoveredProduct => q.id) hpmem)
    simp [newDiscoveredRow, hne]
  have h2 : (upsert_discovered_product normalize_domain
        (upsert_discovered_product normalize_domain session pd1 kid1 t1).1
        pd2 kid2 t2).1
      = session ++ [applyIntelligenceUpdate
          (newDiscoveredRow normalize_domain session pd1 kid1 t1)
          pd2.ad_intelligence t2] := by
    rw [h1]
    simp only [upsert_discovered_product]
    rw [hn2, List.find?_append, hfind]
    rw [List.find?_cons_of_pos _ (by simp [hdp1dom])]
    simp only [Option.none_or, List.map_append, hmapses, List.map_cons, List.map_nil,
      if_pos rfl, if_true]
  rw [h2]
  constructor
  · unfold countDomain at hc ⊢
    rw [List.countP_append, hc]
    simp [List.countP, List.countP.go, hupd.2.2.2.2.2.2.2.2.1, hdp1dom]
  · rw [List.find?_append, hfind]
    simp only [Option.none_or]
    rw [List.find?_cons_of_pos _ (by simp [hupd.2.2.2.2.2.2.2.2.1, hdp1dom])]

/-- C3: For every domain, persisting a discovered entity for that domain
twice leaves exactly one stored entity for the domain, whose
promotional-feature flags, call-to-action, creative themes and last-seen
timestamp always equal the values from the most recent upsert, regardless
of whether any intelligence estimate improved; and when the second persist
carries strictly higher best estimates (spend, impressions, duration), the
stored entity's spend/impression/duration fields equal the latest (higher)
inputs. -/
theorem discovered_entity_upsert_dedup :
    (∀ (normalize_domain : String → Option String)
        (session : List DiscoveredProduct) (pd1 pd2 : ProductData)
        (kid1 kid2 : Option Int) (t1 t2 : Nat) (dom : String),
        normalize_domain pd1.product_page_url = some dom →
        normalize_domain pd2.product_page_url = some dom →
        countDomain session (some dom) = 0 →
        countDomain (upsert_discovered_product normalize_domain
            (upsert_discovered_product normalize_domain session pd1 kid1 t1).1
            pd2 kid2 t2).1 (some dom) = 1
        ∧ ∃ p, (upsert_discovered_product normalize_domain
              (upsert_discovered_product normalize_domain session pd1 kid1 t1).1
              pd2 kid2 t2).1.find? (fun p => p.brand_domain = some dom) = some p
            ∧ p.features_discount_offer = pd2.ad_intelligence.features_discount_offer
            ∧ p.features_urgency_language = pd2.ad_intelligence.features_urgency_language
            ∧ p.features_purchase_cta = pd2.ad_intelligence.features_purchase_cta
            ∧ p.features_social_proof = pd2.ad_intelligence.features_social_proof
            ∧ p.features_free_shipping = pd2.ad_intelligence.features_free_shipping
            ∧ p.primary_call_to_action = pd2.ad_intelligence.primary_call_to_action
            ∧ p.ad_creative_themes = pd2.ad_intelligence.ad_creative_themes
            ∧ p.last_seen_advertising = some t2)
    ∧ (∀ (normalize_domain : String → Option String)
        (session : List DiscoveredProduct) (pd1 pd2 : ProductData)
        (kid1 kid2 : Option Int) (t1 t2 : Nat) (dom : String)
        (spend2 impr2 dur2 : Int),
        normalize_domain pd1.product_page_url = some dom →
        normalize_domain pd2.product_page_url = some dom →
        countDomain session (some dom) = 0 →
        pd2.ad_intelligence.estimated_monthly_ad_spend = some spend2 →
        pd2.ad_intelligence.estimated_monthly_impressions = some impr2 →
        pd2.ad_intelligence.ad_campaign_duration_days = some dur2 →
        pd1.ad_intelligence.estimated_monthly_ad_spend.getD 0 < spend2 →
        pd1.ad_intelligence.estimated_monthly_impressions.getD 0 < impr2 →
        pd1.ad_intelligence.ad_campaign_duration_days.getD 0 < dur2 →
        ∃ p, (upsert_discovered_product normalize_domain
              (upsert_discovered_product normalize_domain session pd1 kid1 t1).1
              pd2 kid2 t2).1.find? (fun p => p.brand_domain = some dom) = some p
            ∧ p.estimated_monthly_ad_spend = some spend2
            ∧ p.min_monthly_ad_spend = pd2.ad_intelligence.min_monthly_ad_spend
            ∧ p.max_monthly_ad_spend = pd2.ad_intelligence.max_monthly_ad_spend
            ∧ p.estimated_monthly_impressions = some impr2
            ∧ p.min_monthly_impressions = pd2.ad_intelligence.min_monthly_impressions
            ∧ p.max_monthly_impressions = pd2.ad_intelligence.max_monthly_impressions
            ∧ p.ad_campaign_duration_days = some dur2) := by
  constructor
  · intro normalize_domain session pd1 pd2 kid1 kid2 t1 t2 dom hn1 hn2 hc
    obtain ⟨hcount, hfindq⟩ :=
      upsert_twice_core normalize_domain session pd1 pd2 kid1 kid2 t1 t2 dom hn1 hn2 hc
    have hupd := applyIntelligenceUpdate_always_fields
      (newDiscoveredRow normalize_domain session pd1 kid1 t1) pd2.ad_intelligence t2
    exact ⟨hcount, applyIntelligenceUpdate
        (newDiscoveredRow normalize_domain session pd1 kid1 t1) pd2.ad_intelligence t2,
      hfindq, hupd.1, hupd.2.1, hupd.2.2.1, hupd.2.2.2.1, hupd.2.2.2.2.1,
      hupd.2.2.2.2.2.1, hupd.2.2.2.2.2.2.1, hupd.2.2.2.2.2.2.2.1⟩
  · intro normalize_domain session pd1 pd2 kid1 kid2 t1 t2 dom spend2 impr2 dur2
      hn1 hn2 hc hs2 hi2 hd2 hspend himpr hdur
    obtain ⟨hcount, hfindq⟩ :=
      upsert_twice_core normalize_domain session pd1 pd2 kid1 kid2 t1 t2 dom hn1 hn2 hc
    have hest := applyIntelligenceUpdate_estimates
      (newDiscoveredRow normalize_domain session pd1 kid1 t1) pd2.ad_intelligence t2
      spend2 impr2 dur2 hs2 hi2 hd2 hspend himpr hdur
    exact ⟨applyIntelligenceUpdate
        (newDiscoveredRow normalize_domain session pd1 kid1 t1) pd2.ad_intelligence t2,
      hfindq, hest.1, hest.2.1, hest.2.2.1, hest.2.2.2.1, hest.2.2.2.2.1,
      hest.2.2.2.2.2.1, hest.2.2.2.2.2.2⟩

/-- Witness for C3 on an empty table with the two concrete persists. -/
theorem discovered_entity_upsert_dedup_witness :
    (countDomain (upsert_discovered_product normW
        (upsert_discovered_product normW [] pdW1 (some 1) 0).1
        pdW2 (some 1) 1).1 (some "glowbrand.example") = 1
      ∧ ∃ p, (upsert_discovered_product normW
            (upsert_discovered_product normW [] pdW1 (some 1) 0).1
            pdW2 (some 1) 1).1.find?
              (fun p => p.brand_domain = some "glowbrand.example") = some p
          ∧ p.features_discount_offer = pdW2.ad_intelligence.features_discount_offer
          ∧ p.features_urgency_language = pdW2.ad_intelligence.features_urgency_language
          ∧ p.features_purchase_cta = pdW2.ad_intelligence.features_purchase_cta
          ∧ p.features_social_proof = pdW2.ad_intelligence.features_social_proof
          ∧ p.features_free_shipping = pdW2.ad_intelligence.features_free_shipping
          ∧ p.primary_call_to_action = pdW2.ad_intelligence.primary_call_to_action
          ∧ p.ad_creative_themes = pdW2.ad_intelligence.ad_creative_themes
          ∧ p.last_seen_advertising = some 1)
    ∧ (∃ p, (upsert_discovered_product normW
            (upsert_discovered_product normW [] pdW1 (some 1) 0).1
            pdW2 (some 1) 1).1.find?
              (fun p => p.brand_domain = some "glowbrand.example") = some p
          ∧ p.estimated_monthly_ad_spend = some 500
          ∧ p.min_monthly_ad_spend = pdW2.ad_intelligence.min_monthly_ad_spend
          ∧ p.max_monthly_ad_spend = pdW2.ad_intelligence.max_monthly_ad_spend
          ∧ p.estimated_monthly_impressions = some 5000
          ∧ p.min_monthly_impressions = pdW2.ad_intelligence.min_monthly_impressions
          ∧ p.max_monthly_impressions = pdW2.ad_intelligence.max_monthly_impressions
          ∧ p.ad_campaign_duration_days = some 30) :=
  ⟨discovered_entity_upsert_dedup.1 normW [] pdW1 pdW2 (some 1) (some 1) 0 1
      "glowbrand.example" rfl rfl rfl,
   discovered_entity_upsert_dedup.2 normW [] pdW1 pdW2 (some 1) (some 1) 0 1
      "glowbrand.example" 500 5000 30 rfl rfl rfl rfl rfl rfl
      (by decide) (by decide) (by decide)⟩

theorem alistGet_alistSet (l : List (String × β)) (k : String) (v : β) :
    alistGet (alistSet l k v) k = some v := by
  induction l with
  | nil => simp [alistGet, alistSet, List.find?]
  | cons a as ih =>
    by_cases ha : a.1 = k
    · have hf : List.find? (fun p => p.1 = k) (a :: as) = some a :=
        List.find?_cons_of_pos _ (by simpa using ha)
      unfold alistSet
      rw [hf]
      simp only [Option.isSome_some, if_true]
      simp [alistGet, List.find?_cons_of_pos, ha]
    · have hf : List.find? (fun p => p.1 = k) (a :: as) =
          List.find? (fun p => p.1 = k) as :=
        List.find?_cons_of_neg _ (by simpa using ha)
      cases hcase : List.find? (fun p => p.1 = k) as with
      | none =>
        unfold alistSet
        rw [hf, hcase]
        simp only [Option.isSome_none, Bool.false_eq_true, if_false]
        refine alistGet_append_single v ?_
        simp [alistGet, hf, hcase]
      | some w =>
        unfold alistSet at ih ⊢
        rw [hf, hcase]
        rw [hcase] at ih
        simp only [Option.isSome_some, if_true] at ih ⊢
        unfold alistGet at ih ⊢
        rw [List.map_cons]
        rw [if_neg ha, List.find?_cons_of_neg _ (by simpa using ha)]
        exact ih

/-- C1: For every keyword, if a registry entry exists with status
running_step1 or running_step2, submit returns that entry unchanged,
leaves the registry unchanged and schedules no background run (hence no
second persisted Keyword record); otherwise it stores a fresh entry created
as not_started and marked running_step1 before returning; consequently two
submissions in quick succession return the same run snapshot, and the
second schedules nothing. -/
theorem submit_idempotent_while_running :
    (∀ (tasks : List (String × KeywordStatus)) (keyword : String) (st : KeywordStatus),
        alistGet tasks keyword = some st →
        (st.status = PipelineStatus.running_step1 ∨ st.status = PipelineStatus.running_step2) →
        run_keyword_pipeline tasks keyword
          = { running_tasks := tasks, response := st, launched := false })
    ∧ (∀ (tasks : List (String × KeywordStatus)) (keyword : String),
        (∀ st, alistGet tasks keyword = some st →
            ¬(st.status = PipelineStatus.running_step1 ∨ st.status = PipelineStatus.running_step2)) →
        run_keyword_pipeline tasks keyword
          = { running_tasks := alistSet tasks keyword (freshRunEntry keyword),
              response := freshRunEntry keyword, launched := true }
          ∧ (freshRunEntry keyword).status = PipelineStatus.running_step1
          ∧ alistGet (alistSet tasks keyword (freshRunEntry keyword)) keyword
              = some (freshRunEntry keyword))
    ∧ (∀ (tasks : List (String × KeywordStatus)) (keyword : String),
        (run_keyword_pipeline (run_keyword_pipeline tasks keyword).running_tasks
            keyword).response
          = (run_keyword_pipeline tasks keyword).response
        ∧ (run_keyword_pipeline (run_keyword_pipeline tasks keyword).running_tasks
            keyword).running_tasks
          = (run_keyword_pipeline tasks keyword).running_tasks
        ∧ (run_keyword_pipeline (run_keyword_pipeline tasks keyword).running_tasks
            keyword).launched = false) := by
  refine ⟨?_, ?_, ?_⟩
  · intro tasks keyword st hget hrun
    unfold run_keyword_pipeline
    rw [hget]
    simp only [if_pos hrun]
  · intro tasks keyword hnot
    refine ⟨?_, rfl, alistGet_alistSet tasks keyword (freshRunEntry keyword)⟩
    unfold run_keyword_pipeline
    cases hget : alistGet tasks keyword with
    | none => rfl
    | some st => simp only [if_neg (hnot st hget)]
  · intro tasks keyword
    cases hget : alistGet tasks keyword with
    | none =>
      unfold run_keyword_pipeline
      rw [hget]
      simp only []
      rw [alistGet_alistSet]
      simp [freshRunEntry]
    | some st =>
      by_cases hrun : st.status = PipelineStatus.running_step1
          ∨ st.status = PipelineStatus.running_step2
      · unfold run_keyword_pipeline
        rw [hget]
        simp only [if_pos hrun]
        rw [hget]
        simp [if_pos hrun]
      · unfold run_keyword_pipeline
        rw [hget]
        simp only [if_neg hrun]
        rw [alistGet_alistSet]
        simp [freshRunEntry]

/-- Witness for C1: a registry holding a running entry for "demo" echoes it;
an empty registry gets a fresh running_step1 entry; double submission on an
empty registry returns the same snapshot twice and schedules nothing the
second time. -/
theorem submit_idempotent_while_running_witness :
    (run_keyword_pipeline
        [("demo", { keyword := "demo", status := PipelineStatus.running_step1 })] "demo"
      = { running_tasks :=
            [("demo", { keyword := "demo", status := PipelineStatus.running_step1 })]
          response := { keyword := "demo", status := PipelineStatus.running_step1 }
          launched := false })
    ∧ (run_keyword_pipeline [] "demo"
        = { running_tasks := alistSet [] "demo" (freshRunEntry "demo")
            response := freshRunEntry "demo", launched := true }
        ∧ (freshRunEntry "demo").status = PipelineStatus.running_step1
        ∧ alistGet (alistSet [] "demo" (freshRunEntry "demo")) "demo"
            = some (freshRunEntry "demo"))
    ∧ ((run_keyword_pipeline (run_keyword_pipeline [] "demo").running_tasks "demo").response
        = (run_keyword_pipeline [] "demo").response
      ∧ (run_keyword_pipeline (run_keyword_pipeline [] "demo").running_tasks "demo").running_tasks
        = (run_keyword_pipeline [] "demo").running_tasks
      ∧ (run_keyword_pipeline (run_keyword_pipeline [] "demo").running_tasks "demo").launched
        = false) :=
  ⟨submit_idempotent_while_running.1
      [("demo", { keyword := "demo", status := PipelineStatus.running_step1 })] "demo"
      { keyword := "demo", status := PipelineStatus.running_step1 } rfl (Or.inl rfl),
   submit_idempotent_while_running.2.1 [] "demo"
      (by intro st h; simp [alistGet, List.find?] at h),
   submit_idempotent_while_running.2.2 [] "demo"⟩

theorem runPipelineBody_raised (env : PipelineEnv) (keyword : String)
    (tasks : List (String × KeywordStatus)) (st0 : KeywordStatus) (m : String)
    (hget : alistGet tasks keyword = some st0)
    (hraise : (runPipelineBody env keyword tasks).raised = some m) :
    ∃ e : KeywordStatus,
      (runPipelineBody env keyword tasks).running_tasks = alistSet tasks keyword e
      ∧ e.started_at = some 0 := by
  unfold runPipelineBody at hraise ⊢
  rw [hget] at hraise ⊢
  cases hkr : env.keywordRecord with
  | error s =>
    exact ⟨_, rfl, rfl⟩
  | ok kid =>
    rw [hkr] at hraise
    cases hsc : env.scrape with
    | error s =>
      exact ⟨_, rfl, rfl⟩
    | ok prods =>
      rw [hsc] at hraise
      cases hempty : prods.isEmpty with
      | true => simp [hempty, mkOutcome] at hraise
      | false =>
        simp only [hempty, Bool.false_eq_true, if_false] at hraise ⊢
        cases hrec : env.recent with
        | error s =>
          exact ⟨_, rfl, rfl⟩
        | ok recents =>
          rw [hrec] at hraise
          simp [mkOutcome] at hraise

/-- C4: For every run whose stage-1 scrape returns an empty list, the
orchestrator finalizes the run as COMPLETED with step2_enriched = 0,
records a completion time and returns early without raising: the
traffic-lookup collaborator is never invoked and no stage-2 event is
emitted — the event trace ends at the pipeline-complete event with zero
counts. -/
theorem zero_results_completes_without_stage2
    (env : PipelineEnv) (keyword : String)
    (tasks : List (String × KeywordStatus)) (st0 : KeywordStatus) (kid : Int)
    (hget : alistGet tasks keyword = some st0)
    (hzero : st0.step2_enriched = 0)
    (hkr : env.keywordRecord = .ok kid)
    (hscrape : env.scrape = .ok []) :
    (run_pipeline env keyword tasks).raised = none
    ∧ (run_pipeline env keyword tasks).trafficCalls = []
    ∧ (run_pipeline env keyword tasks).events
        = [.pipelineStart, .logEv "info" "keyword record resolved", .step1Start,
           .step1Complete 0, .logEv "warning" "No products found. Pipeline complete.",
           .pipelineComplete 0 0]
    ∧ ∃ fin, alistGet (run_pipeline env keyword tasks).running_tasks keyword = some fin
        ∧ fin.status = PipelineStatus.completed
        ∧ fin.step2_enriched = 0
        ∧ fin.completed_at = some 1 := by
  have hbody : runPipelineBody env keyword tasks
      = { running_tasks := alistSet tasks keyword
            { st0 with status := PipelineStatus.completed, started_at := some 0,
                       step1_products := 0, completed_at := some 1 }
          events := [.pipelineStart, .logEv "info" "keyword record resolved", .step1Start,
            .step1Complete 0, .logEv "warning" "No products found. Pipeline complete.",
            .pipelineComplete 0 0]
          trafficCalls := []
          tick := 2
          raised := none } := by
    unfold runPipelineBody
    rw [hget, hkr, hscrape]
    rfl
  unfold run_pipeline
  rw [hbody]
  refine ⟨rfl, rfl, rfl, ?_⟩
  exact ⟨{ st0 with
            status := PipelineStatus.completed
            started_at := some 0
            step1_products := 0
            completed_at := some 1 },
    alistGet_alistSet tasks keyword _, rfl, hzero, rfl⟩

/-- Witness for C4 on a concrete zero-result run. -/
theorem zero_results_completes_without_stage2_witness :
    (run_pipeline envZero "demo" tasksDemo).raised = none
    ∧ (run_pipeline envZero "demo" tasksDemo).trafficCalls = []
    ∧ (run_pipeline envZero "demo" tasksDemo).events
        = [.pipelineStart, .logEv "info" "keyword record resolved", .step1Start,
           .step1Complete 0, .logEv "warning" "No products found. Pipeline complete.",
           .pipelineComplete 0 0]
    ∧ ∃ fin, alistGet (run_pipeline envZero "demo" tasksDemo).running_tasks "demo" = some fin
        ∧ fin.status = PipelineStatus.completed
        ∧ fin.step2_enriched = 0
        ∧ fin.completed_at = some 1 :=
  zero_results_completes_without_stage2 envZero "demo" tasksDemo
    (freshRunEntry "demo") 1 rfl rfl rfl rfl

/-- C8: Any exception escaping the orchestration body is caught at the top
level: the background task never re-raises to its caller, an error event is
emitted after the body's events, and the resident registry entry is marked
FAILED with the error message appended to its error list, a completion time
recorded, and a duration computed (its `started_at` having been set before
any raise point); the failure handler computes the duration only when
`started_at` is set and skips it — leaving the stored duration untouched —
when it is unset. -/
theorem pipeline_top_level_exception_handling :
    (∀ (env : PipelineEnv) (keyword : String)
        (tasks : List (String × KeywordStatus)) (st0 : KeywordStatus) (m : String),
        alistGet tasks keyword = some st0 →
        (runPipelineBody env keyword tasks).raised = some m →
        (run_pipeline env keyword tasks).raised = none
        ∧ (run_pipeline env keyword tasks).events
            = (runPipelineBody env keyword tasks).events
              ++ [PEvent.pipelineError ("Pipeline failed: " ++ m) none]
        ∧ ∃ fin prevErrors,
            alistGet (run_pipeline env keyword tasks).running_tasks keyword = some fin
            ∧ fin.status = PipelineStatus.failed
            ∧ fin.errors = prevErrors ++ ["Pipeline failed: " ++ m]
            ∧ fin.completed_at.isSome
            ∧ fin.started_at.isSome
            ∧ fin.duration_seconds.isSome)
    ∧ (∀ (entry : KeywordStatus) (msg : String) (now : Nat),
        (entry.started_at = none →
          (pipelineFailureHandler entry msg now).duration_seconds
            = entry.duration_seconds)
        ∧ (∀ s, entry.started_at = some s →
          (pipelineFailureHandler entry msg now).duration_seconds
            = some ((now : Int) - (s : Int)))) := by
  constructor
  · intro env keyword tasks st0 m hget hraise
    obtain ⟨e, hrt, hstart⟩ := runPipelineBody_raised env keyword tasks st0 m hget hraise
    have hh : pipelineFailureHandler e ("Pipeline failed: " ++ m)
        (runPipelineBody env keyword tasks).tick
        = { e with status := PipelineStatus.failed
                   errors := e.errors ++ ["Pipeline failed: " ++ m]
                   completed_at := some (runPipelineBody env keyword tasks).tick
                   duration_seconds :=
                     some (((runPipelineBody env keyword tasks).tick : Int) - (0 : Int)) } := by
      unfold pipelineFailureHandler
      rw [hstart]
      rfl
    simp only [run_pipeline, hraise]
    simp only [hrt, alistGet_alistSet]
    refine ⟨trivial, trivial, ?_⟩
    refine ⟨pipelineFailureHandler e ("Pipeline failed: " ++ m)
        (runPipelineBody env keyword tasks).tick, e.errors, rfl, ?_, ?_, ?_, ?_, ?_⟩
    · rw [hh]
    · rw [hh]
    · rw [hh]
      simp
    · rw [hh]
      simp [hstart]
    · rw [hh]
      simp
  · intro entry msg now
    constructor
    · intro hnone
      unfold pipelineFailureHandler
      rw [hnone]
      rfl
    · intro s hsome
      unfold pipelineFailureHandler
      rw [hsome]
      rfl

/-- Witness for C8 on a concrete failing run and concrete handler inputs. -/
theorem pipeline_top_level_exception_handling_witness :
    ((run_pipeline envScrapeFail "demo" tasksDemo).raised = none
      ∧ (run_pipeline envScrapeFail "demo" tasksDemo).events
          = (runPipelineBody envScrapeFail "demo" tasksDemo).events
            ++ [PEvent.pipelineError ("Pipeline failed: " ++ "Apify run timed out") none]
      ∧ ∃ fin prevErrors,
          alistGet (run_pipeline envScrapeFail "demo" tasksDemo).running_tasks "demo"
            = some fin
          ∧ fin.status = PipelineStatus.failed
          ∧ fin.errors = prevErrors ++ ["Pipeline failed: " ++ "Apify run timed out"]
          ∧ fin.completed_at.isSome
          ∧ fin.started_at.isSome
          ∧ fin.duration_seconds.isSome)
    ∧ (pipelineFailureHandler { keyword := "demo", status := PipelineStatus.running_step1 }
        "boom" 5).duration_seconds
      = ({ keyword := "demo", status := PipelineStatus.running_step1 } :
          KeywordStatus).duration_seconds
    ∧ (pipelineFailureHandler
        { keyword := "demo", status := PipelineStatus.running_step1, started_at := some 2 }
        "boom" 5).duration_seconds = some ((5 : Int) - (2 : Int)) :=
  ⟨pipeline_top_level_exception_handling.1 envScrapeFail "demo" tasksDemo
      (freshRunEntry "demo") "Apify run timed out" rfl rfl,
   (pipeline_top_level_exception_handling.2
      { keyword := "demo", status := PipelineStatus.running_step1 } "boom" 5).1 rfl,
   (pipeline_top_level_exception_handling.2
      { keyword := "demo", status := PipelineStatus.running_step1, started_at := some 2 }
      "boom" 5).2 2 rfl⟩

/-- C6 (code bug): for the keyword "demo", not resident in the registry and
with one persisted entity tied to it, `get_keyword_status` raises
`AttributeError` on the nonexistent column `DiscoveredProduct.discovery_keyword`
instead of returning the reconstructed COMPLETED run view the spec (and the
function's own docstring) promise; the spec-side reconstruction on the same
storage yields that COMPLETED view with step1 count 1, start/end times both
from the entity, and enrichment count 0. -/
theorem get_keyword_status_attribute_error :
    get_keyword_status [] [prodDemo] "demo"
      = Except.error
          ("AttributeError: type object DiscoveredProduct has no attribute "
            ++ "discovery_keyword")
    ∧ get_keyword_status_specified [] [(1, "demo")] [prodDemo] [] "demo"
      = some { keyword := "demo"
               status := PipelineStatus.completed
               step1_products := 1
               step2_enriched := 0
               started_at := some 5
               completed_at := some 5
               duration_seconds := some 0 } := by
  constructor
  · rfl
  · rfl

/-- C9 (code bug): deleting the results of keyword "demo" — whose Keyword
row has id 1 and which owns the persisted entity `prodDemo` through
`keyword_id = 1` — reports "not found" and removes nothing: the filter
compares the integer `keyword_id` column against the keyword string
"demo", which matches no row, so the entities, their enrichment record,
the registry entry and the log buffer all survive. -/
theorem delete_results_keyword_id_mismatch :
    prodDemo.keyword_id = some 1
    ∧ (delete_results "demo" [prodDemo] [trafDemo]
        [("demo", freshRunEntry "demo")] ["demo"]).response
      = Except.error ("No results found for keyword: " ++ "demo")
    ∧ (delete_results "demo" [prodDemo] [trafDemo]
        [("demo", freshRunEntry "demo")] ["demo"]).db = [prodDemo]
    ∧ (delete_results "demo" [prodDemo] [trafDemo]
        [("demo", freshRunEntry "demo")] ["demo"]).traffic = [trafDemo]
    ∧ (delete_results "demo" [prodDemo] [trafDemo]
        [("demo", freshRunEntry "demo")] ["demo"]).running_tasks
      = [("demo", freshRunEntry "demo")]
    ∧ (delete_results "demo" [prodDemo] [trafDemo]
        [("demo", freshRunEntry "demo")] ["demo"]).task_logs = ["demo"] :=
  ⟨rfl, rfl, rfl, rfl, rfl, rfl⟩
